import Mathlib

/-!
Shallow embedding of `src/server.py` (mail-guardian-server).

Strings are modelled through their character lists.  Python's `str.lower`
is modelled character-wise with `Char.toLower` (exact on ASCII, which is
all the rule constants use); `x in s` is substring containment;
`s.split("@")[-1]` is the text after the last `@` (the whole string when
there is no `@`); `str.strip()` drops whitespace on both ends.
`re.search(r"<(.+?)>", s)` is modelled by `extractBracket`: the first `<`
from the left that is followed, with at least one interleaving character
and no newline, by a `>`; the captured group runs up to the first such `>`.
`extract(r"Label:(.*)", text)` with `re.IGNORECASE` is modelled by
`extract`: the text after the first case-insensitive occurrence of the
label, up to the end of the line, stripped; `"N/A"` when absent.
The response's `checked_at` timestamp (wall clock, transport concern) is
not part of the model.
-/

namespace MailGuardian

/-- Character-wise lowercase, modelling Python `str.lower()` on ASCII text. -/
def lowerL (l : List Char) : List Char := l.map Char.toLower

/-- `startsWithB n h` : the list `h` begins with `n`. -/
def startsWithB : List Char → List Char → Bool
  | [], _ => true
  | _ :: _, [] => false
  | a :: as, b :: bs => a == b && startsWithB as bs

/-- `containsB n h` : `n` occurs as a contiguous sublist of `h`
(Python `n in h` on strings). -/
def containsB (needle : List Char) : List Char → Bool
  | [] => startsWithB needle []
  | b :: bs => startsWithB needle (b :: bs) || containsB needle bs

/-- `endsWithB n h` : the list `h` ends with `n` (Python `h.endswith(n)`). -/
def endsWithB (needle hay : List Char) : Bool :=
  startsWithB needle.reverse hay.reverse

/-- Python `str.strip()`: drop whitespace from both ends. -/
def pyStrip (l : List Char) : List Char :=
  ((l.dropWhile Char.isWhitespace).reverse.dropWhile Char.isWhitespace).reverse

/-- The remainder of the text after the first case-insensitive occurrence of
`lab`, in original case; `none` when `lab` does not occur. -/
def searchAfter (lab : List Char) : List Char → Option (List Char)
  | [] => if startsWithB (lowerL lab) [] then some [] else none
  | c :: rest =>
    if startsWithB (lowerL lab) (lowerL (c :: rest)) then
      some ((c :: rest).drop lab.length)
    else searchAfter lab rest

/-- `extract(pattern, text)` of server.py for the label patterns
`r"Subject:(.*)"` … : rest of the line after the first case-insensitive
occurrence of the label, stripped, else the sentinel `"N/A"`. -/
def extract (label : String) (text : String) : String :=
  match searchAfter label.data text.data with
  | none => "N/A"
  | some rest => String.mk (pyStrip (rest.takeWhile (fun c => c != '\n')))

/-- Scan for the closing `>` of `re.search(r"<(.+?)>", ·)`: the characters
up to the first `>`, failing at a newline (`.` does not match `\n`) or at
the end of the string. -/
def scanTo : List Char → Option (List Char)
  | [] => none
  | c :: rest =>
    if c = '>' then some []
    else if c = '\n' then none
    else (scanTo rest).map (fun l => c :: l)

/-- The group of `r"<(.+?)>"` when the match starts right here (just after a
`<`): at least one non-newline character, then everything up to the first
`>`. -/
def grabContent : List Char → Option (List Char)
  | [] => none
  | c :: rest => if c = '\n' then none else (scanTo rest).map (fun l => c :: l)

/-- `re.search(r"<(.+?)>", s)`: try every position left to right; at each
`<`, succeed with the lazily-matched group if one exists, otherwise keep
scanning. -/
def extractBracket : List Char → Option (List Char)
  | [] => none
  | c :: rest =>
    if c = '<' then
      match grabContent rest with
      | some content => some content
      | none => extractBracket rest
    else extractBracket rest

/-- Python `email.split("@")[-1]`: the text after the last `@`, or the whole
string when no `@` occurs. -/
def afterLastAt (l : List Char) : List Char :=
  ((l.reverse.takeWhile (fun c => c != '@'))).reverse

/-- `\d{3,}` of the phishing-style regex: three consecutive digits occur. -/
def threeDigitRun : List Char → Bool
  | a :: b :: c :: rest =>
    (a.isDigit && b.isDigit && c.isDigit) || threeDigitRun (b :: c :: rest)
  | _ => false

def TRUSTED_TLDS : List String := [".gov", ".edu"]

def COMMON_MAIL_PROVIDERS : List String :=
  ["gmail.com", "outlook.com", "yahoo.com", "icloud.com"]

def KNOWN_BRANDS : List String :=
  ["sbi", "paypal", "amazon", "google", "microsoft", "apple"]

/-- A single-quote character, for the brand-mismatch message. -/
def squote : String := String.singleton (Char.ofNat 39)

/-- The f-string `f"Brand name '{brand}' does not match domain"`. -/
def brandMsg (brand : String) : String :=
  "Brand name " ++ squote ++ brand ++ squote ++ " does not match domain"

/-- The brand loop of `domain_reputation`: the first brand of the list that
occurs in the lowered sender line but not in the domain. -/
def findBrand : List String → List Char → List Char → Option String
  | [], _, _ => none
  | b :: bs, name, dom =>
    if containsB b.data name && ! containsB b.data dom then some b
    else findBrand bs name dom

/-- `re.search(r"\d{3,}|-|secure|login|verify", domain)` succeeds. -/
def phishingStyle (dom : List Char) : Bool :=
  threeDigitRun dom || containsB [ '-' ] dom || containsB "secure".data dom ||
    containsB "login".data dom || containsB "verify".data dom

/-- `domain_reputation(sender_line)` of server.py. -/
def domain_reputation (sender_line : String) : String × String :=
  match extractBracket sender_line.data with
  | none => ("Unknown", "Could not extract sender domain")
  | some bracketed =>
    let email := lowerL bracketed
    let domain := afterLastAt email
    if TRUSTED_TLDS.any (fun tld => endsWithB tld.data domain) then
      ("Trusted", "Official organization domain")
    else if COMMON_MAIL_PROVIDERS.any (fun p => p.data == domain) then
      ("Neutral", "Public email provider")
    else
      match findBrand KNOWN_BRANDS (lowerL sender_line.data) domain with
      | some b => ("Suspicious", brandMsg b)
      | none =>
        if phishingStyle domain then
          ("Suspicious", "Domain looks auto-generated or phishing-style")
        else ("Unknown", "No strong indicators")

/-- `header_phishing(header)` of server.py: the authentication-failure rule
(+40) then the missing-routing rule (+20), reasons in that order. -/
def header_phishing (header : String) : Nat × List String :=
  let h := lowerL header.data
  let auth := containsB "spf=fail".data h || containsB "dkim=fail".data h ||
    containsB "dmarc=fail".data h
  let noRoute := ! containsB "received:".data h
  ((if auth then 40 else 0) + (if noRoute then 20 else 0),
   (if auth then ["Email authentication failed (SPF/DKIM/DMARC)"] else []) ++
     (if noRoute then ["Header routing information missing"] else []))

def WORDS : List String :=
  ["urgent", "verify", "suspend", "click", "reward",
   "lottery", "winner", "bank", "blocked",
   "update kyc", "password", "otp", "limited time"]

/-- The keyword loop of `text_scam_detection`: +10 and one reason per listed
word occurring in the lowered text, in list order. -/
def keywordLoop : List String → List Char → Nat × List String
  | [], _ => (0, [])
  | w :: ws, tl =>
    let rest := keywordLoop ws tl
    if containsB w.data tl then
      (10 + rest.1, ("Suspicious phrase: " ++ w) :: rest.2)
    else rest

/-- `text_scam_detection(text)` of server.py. -/
def text_scam_detection (text : String) : Nat × List String :=
  let tl := lowerL text.data
  let kw := keywordLoop WORDS tl
  if containsB "http://".data tl then
    (kw.1 + 20, kw.2 ++ ["Unsecured link detected"])
  else kw

/-- The score-to-tier classifier inlined at lines 134-139 of server.py. -/
def risk_of (score : Nat) : String :=
  if score ≥ 70 then "High" else if score ≥ 35 then "Medium" else "Low"

/-- The header/plain-text detection of `analyze_email`. -/
def is_header (data : String) : Bool :=
  containsB "received:".data (lowerL data.data) ||
    containsB "subject:".data (lowerL data.data)

/-- The response record of `analyze_email` (field names follow the local
variables of server.py; the wall-clock `checked_at` is omitted). -/
structure AnalysisResult where
  subject : String
  sender : String
  receiver : String
  date : String
  risk : String
  score : Nat
  reasons : List String
  reputation : String
  rep_note : String
  deriving Repr, DecidableEq

/-- `analyze_email(request)` of server.py on the request's header string. -/
def analyze_email (data : String) : AnalysisResult :=
  let hdr := is_header data
  let subject := if hdr then extract "Subject:" data else "Screenshot Text"
  let sender := if hdr then extract "From:" data else "Unknown"
  let receiver := if hdr then extract "To:" data else "User"
  let date := if hdr then extract "Date:" data else "N/A"
  let hp := if hdr then header_phishing data else (0, [])
  let rep := if hdr then domain_reputation sender
    else ("Unknown", "Detected from screenshot message")
  let ts := text_scam_detection data
  let score := hp.1 + ts.1
  let rawReasons := hp.2 ++ ts.2
  let reasons := if rawReasons = [] then ["No suspicious indicators found"]
    else rawReasons
  { subject := subject, sender := sender, receiver := receiver, date := date,
    risk := risk_of score, score := score, reasons := reasons,
    reputation := rep.1, rep_note := rep.2 }

/-- The end-to-end header of the spec's integration example. -/
def exampleHeader : String :=
  "Subject: Verify your account\nFrom: Security <security@paypal-verify-login.com>\nspf=fail"

/-- Every trigger phrase of the scoring rules: the keyword list, the three
authentication-failure markers and the insecure-link marker. -/
def triggerPhrases : List String :=
  WORDS ++ ["spf=fail", "dkim=fail", "dmarc=fail", "http://"]

/-! ### Helper lemmas -/

lemma susPhrase_head (w : String) :
    (("Suspicious phrase: " ++ w).data).head? = some 'S' := by
  rw [String.data_append]
  rfl

lemma brandMsg_head (b : String) : ((brandMsg b).data).head? = some 'B' := by
  simp only [brandMsg, String.data_append]
  rfl

lemma kw_ne_link (w : String) :
    ("Suspicious phrase: " ++ w) ≠ "Unsecured link detected" := by
  intro h
  have hh := susPhrase_head w
  rw [h] at hh
  exact absurd hh (by decide)

lemma kw_ne_fallback (w : String) :
    ("Suspicious phrase: " ++ w) ≠ "No suspicious indicators found" := by
  intro h
  have hh := susPhrase_head w
  rw [h] at hh
  exact absurd hh (by decide)

lemma mem_keywordLoop {r : String} :
    ∀ (ws : List String) (tl : List Char), r ∈ (keywordLoop ws tl).2 →
      ∃ w, w ∈ ws ∧ r = "Suspicious phrase: " ++ w := by
  intro ws
  induction ws with
  | nil => intro tl h; simp [keywordLoop] at h
  | cons w ws ih =>
    intro tl h
    simp only [keywordLoop] at h
    split at h
    · rcases List.mem_cons.mp h with h1 | h1
      · exact ⟨w, List.mem_cons_self .., h1⟩
      · rcases ih tl h1 with ⟨w2, hw2, he⟩
        exact ⟨w2, List.mem_cons_of_mem _ hw2, he⟩
    · rcases ih tl h with ⟨w2, hw2, he⟩
      exact ⟨w2, List.mem_cons_of_mem _ hw2, he⟩

lemma link_not_mem_keywordLoop (ws : List String) (tl : List Char) :
    "Unsecured link detected" ∉ (keywordLoop ws tl).2 := by
  intro h
  rcases mem_keywordLoop ws tl h with ⟨w, _, he⟩
  exact kw_ne_link w he.symm

lemma fallback_not_mem_ts (t : String) :
    "No suspicious indicators found" ∉ (text_scam_detection t).2 := by
  intro h
  simp only [text_scam_detection] at h
  split at h
  · rcases List.mem_append.mp h with h1 | h1
    · rcases mem_keywordLoop _ _ h1 with ⟨w, _, he⟩
      exact kw_ne_fallback w he.symm
    · simp at h1
  · rcases mem_keywordLoop _ _ h with ⟨w, _, he⟩
    exact kw_ne_fallback w he.symm

lemma fallback_not_mem_hp (h : String) :
    "No suspicious indicators found" ∉ (header_phishing h).2 := by
  simp only [header_phishing]
  split <;> split <;> simp

lemma keywordLoop_score_zero_iff :
    ∀ (ws : List String) (tl : List Char),
      (keywordLoop ws tl).1 = 0 ↔ (keywordLoop ws tl).2 = [] := by
  intro ws
  induction ws with
  | nil => intro tl; simp [keywordLoop]
  | cons w ws ih =>
    intro tl
    simp only [keywordLoop]
    split
    · simp
    · exact ih tl

lemma header_phishing_score_zero_iff (h : String) :
    (header_phishing h).1 = 0 ↔ (header_phishing h).2 = [] := by
  simp only [header_phishing]
  split <;> split <;> simp

lemma ts_score_zero_iff (t : String) :
    (text_scam_detection t).1 = 0 ↔ (text_scam_detection t).2 = [] := by
  simp only [text_scam_detection]
  split
  · constructor
    · intro h; omega
    · intro h; simp at h
  · exact keywordLoop_score_zero_iff _ _

/-- The raw reason list accumulated by `analyze_email` before the fallback
is inserted. -/
lemma analyze_email_reasons (data : String) :
    (analyze_email data).reasons =
      (if (if is_header data then header_phishing data else (0, [])).2 ++
          (text_scam_detection data).2 = [] then
        ["No suspicious indicators found"]
      else (if is_header data then header_phishing data else (0, [])).2 ++
        (text_scam_detection data).2) := rfl

lemma analyze_email_score (data : String) :
    (analyze_email data).score =
      (if is_header data then header_phishing data else (0, [])).1 +
        (text_scam_detection data).1 := rfl

lemma hpPart_score_zero (data : String) :
    (if is_header data then header_phishing data
        else ((0 : Nat), ([] : List String))).2 = [] →
      (if is_header data then header_phishing data
        else ((0 : Nat), ([] : List String))).1 = 0 := by
  cases hd : is_header data
  · simp [hd]
  · simp only [hd, if_true]
    exact (header_phishing_score_zero_iff data).mpr

/-- A result whose reason list is just the fallback reason scored zero:
no rule reason string ever equals the fallback string. -/
lemma fallback_score_zero (data : String) :
    (analyze_email data).reasons = ["No suspicious indicators found"] →
    (analyze_email data).score = 0 := by
  intro h
  rw [analyze_email_reasons] at h
  rw [analyze_email_score]
  by_cases hraw : (if is_header data then header_phishing data
      else ((0 : Nat), ([] : List String))).2 ++
      (text_scam_detection data).2 = []
  · rcases List.append_eq_nil.mp hraw with ⟨ha, hb⟩
    rw [hpPart_score_zero data ha, (ts_score_zero_iff data).mpr hb]
  · rw [if_neg hraw] at h
    exfalso
    have hm : "No suspicious indicators found" ∈
        (if is_header data then header_phishing data
          else ((0 : Nat), ([] : List String))).2 ++
          (text_scam_detection data).2 := by
      rw [h]
      exact List.mem_singleton.mpr rfl
    rcases List.mem_append.mp hm with hm1 | hm2
    · cases hd : is_header data
      · simp [hd] at hm1
      · simp only [hd] at hm1
        exact fallback_not_mem_hp data hm1
    · exact fallback_not_mem_ts data hm2

/-! ### Claim theorems -/

/-- C1: the risk classifier is a pure function of the final score with the
exact thresholds: every analysis's risk is `risk_of` of its score, `risk_of`
yields High iff score ≥ 70, Medium iff 35 ≤ score < 70, Low iff score < 35,
and at the boundaries 70 → High, 69 → Medium, 35 → Medium, 34 → Low. -/
theorem C1_risk_classifier :
    (∀ data : String,
      (analyze_email data).risk = risk_of (analyze_email data).score) ∧
    (∀ s : Nat,
      (risk_of s = "High" ↔ 70 ≤ s) ∧
      (risk_of s = "Medium" ↔ (35 ≤ s ∧ s < 70)) ∧
      (risk_of s = "Low" ↔ s < 35)) ∧
    risk_of 70 = "High" ∧ risk_of 69 = "Medium" ∧
    risk_of 35 = "Medium" ∧ risk_of 34 = "Low" := by
  refine ⟨fun data => rfl, fun s => ?_, by decide, by decide, by decide, by decide⟩
  simp only [risk_of]
  split_ifs with h1 h2 <;>
    refine ⟨⟨fun he => ?_, fun hn => ?_⟩, ⟨fun he => ?_, fun hn => ?_⟩,
      ⟨fun he => ?_, fun hn => ?_⟩⟩ <;>
    first
      | omega
      | rfl
      | (exact absurd he (by decide))

/-- C2: on the spec's end-to-end header (subject asking to verify, sender
`security@paypal-verify-login.com`, `spf=fail`) the analysis yields risk
High, a reasons list containing the authentication-failure note and the
keyword note for "verify", and reputation Suspicious. -/
theorem C2_end_to_end :
    (analyze_email exampleHeader).risk = "High" ∧
    "Email authentication failed (SPF/DKIM/DMARC)" ∈
      (analyze_email exampleHeader).reasons ∧
    "Suspicious phrase: verify" ∈ (analyze_email exampleHeader).reasons ∧
    (analyze_email exampleHeader).reputation = "Suspicious" := by
  decide

/-- C3: the domain-reputation rules fire in the fixed order trusted-TLD,
known-provider, brand-mismatch (first brand in list order), phishing-style
pattern, else Unknown.  The three spec examples hold, and discriminating
inputs witness each priority: a trusted TLD wins over a mismatched brand, a
known provider wins over a mismatched brand, a mismatched brand wins over a
phishing-style domain, and the brand list order (not text order) breaks
ties; the could-not-extract note appears exactly when no `<...>` group is
extractable. -/
theorem C3_reputation_rule_order :
    domain_reputation "Admin <admin@agency.gov>" =
      ("Trusted", "Official organization domain") ∧
    domain_reputation "PayPal Support <support@paypa1-secure.com>" =
      ("Suspicious", brandMsg "paypal") ∧
    domain_reputation "Jane <jane@gmail.com>" =
      ("Neutral", "Public email provider") ∧
    domain_reputation "PayPal <a@x.gov>" =
      ("Trusted", "Official organization domain") ∧
    domain_reputation "Google <a@gmail.com>" =
      ("Neutral", "Public email provider") ∧
    domain_reputation "PayPal <a@secure123.cde>" =
      ("Suspicious", brandMsg "paypal") ∧
    domain_reputation "amazon paypal <a@b.cde>" =
      ("Suspicious", brandMsg "paypal") ∧
    domain_reputation "Bob <bob@my-site.cde>" =
      ("Suspicious", "Domain looks auto-generated or phishing-style") ∧
    domain_reputation "Bob <bob@site.cde>" =
      ("Unknown", "No strong indicators") ∧
    (∀ s : String,
      domain_reputation s = ("Unknown", "Could not extract sender domain") ↔
        extractBracket s.data = none) := by
  refine ⟨by decide, by decide, by decide, by decide, by decide, by decide,
    by decide, by decide, by decide, fun s => ?_⟩
  constructor
  · intro h
    by_contra hne
    rcases Option.ne_none_iff_exists'.mp hne with ⟨br, hbr⟩
    rcases hfb : findBrand KNOWN_BRANDS (lowerL s.data)
      (afterLastAt (lowerL br)) with _ | b
    · simp only [domain_reputation, hbr, hfb] at h
      split_ifs at h with h1 h2 h3 <;>
        exact absurd (congrArg Prod.snd h) (by decide)
    · simp only [domain_reputation, hbr, hfb] at h
      split_ifs at h with h1 h2
      · exact absurd (congrArg Prod.snd h) (by decide)
      · exact absurd (congrArg Prod.snd h) (by decide)
      · have h4 := congrArg Prod.snd h
        have h5 := brandMsg_head b
        simp only at h4
        rw [h4] at h5
        exact absurd h5 (by decide)
  · intro h
    simp [domain_reputation, h]

/-- C4 counterexample: the sender line `"X <not-an-email>"` does contain an
extractable `<...>` group, so the evaluator does not return the
could-not-extract verdict; it returns Suspicious with the phishing-style
note (the derived domain "not-an-email" contains a hyphen). -/
theorem C4_counterexample :
    domain_reputation "X <not-an-email>" ≠
      ("Unknown", "Could not extract sender domain") ∧
    domain_reputation "X <not-an-email>" =
      ("Suspicious", "Domain looks auto-generated or phishing-style") := by
  decide

/-- C4 amended: the bracketed text of `"X <not-an-email>"` is extracted as
the email, the `@`-less domain is the whole string "not-an-email", and its
hyphen matches the phishing-style pattern, so the result is Suspicious with
the phishing-style note; only a sender line with no extractable `<...>`
group, such as `"X not-an-email"`, yields Unknown with "Could not extract
sender domain". -/
theorem C4_amended :
    extractBracket "X <not-an-email>".data = some "not-an-email".data ∧
    domain_reputation "X <not-an-email>" =
      ("Suspicious", "Domain looks auto-generated or phishing-style") ∧
    domain_reputation "X not-an-email" =
      ("Unknown", "Could not extract sender domain") := by
  decide

/-- C5: the reason list of the final analysis result is never empty, and
when no rule fired (equivalently, when the score is zero, every rule
contributing a positive weight together with its reason) the reason list is
exactly the single fallback reason. -/
theorem C5_reasons_nonempty :
    ∀ data : String,
      (analyze_email data).reasons ≠ [] ∧
      ((analyze_email data).score = 0 →
        (analyze_email data).reasons = ["No suspicious indicators found"]) := by
  intro data
  constructor
  · rw [analyze_email_reasons]
    by_cases hraw : (if is_header data then header_phishing data
        else ((0 : Nat), ([] : List String))).2 ++
        (text_scam_detection data).2 = []
    · rw [if_pos hraw]
      simp
    · rw [if_neg hraw]
      exact hraw
  · intro h0
    rw [analyze_email_score] at h0
    have ha : (if is_header data then header_phishing data
        else ((0 : Nat), ([] : List String))).1 = 0 := by omega
    have hb : (text_scam_detection data).1 = 0 := by omega
    have ha2 : (if is_header data then header_phishing data
        else ((0 : Nat), ([] : List String))).2 = [] := by
      cases hd : is_header data
      · simp [hd]
      · rw [if_pos hd] at ha
        exact (header_phishing_score_zero_iff data).mp ha
    have hb2 := (ts_score_zero_iff data).mp hb
    rw [analyze_email_reasons, ha2, hb2]
    simp

/-- C5 witness at the rule-free input "x". -/
theorem C5_witness :
    (analyze_email "x").reasons ≠ [] ∧
    (analyze_email "x").reasons = ["No suspicious indicators found"] :=
  ⟨(C5_reasons_nonempty "x").1, (C5_reasons_nonempty "x").2 (by decide)⟩

/-- C6 counterexample: "bit.ly" and "tinyurl" are contained in themselves,
yet the scorer adds no weight and no reason for either, so the link rule
does not fire on them as the claim requires. -/
theorem C6_counterexample :
    containsB "bit.ly".data (lowerL "bit.ly".data) = true ∧
    text_scam_detection "bit.ly" = (0, []) ∧
    containsB "tinyurl".data (lowerL "tinyurl".data) = true ∧
    text_scam_detection "tinyurl" = (0, []) := by
  decide

/-- C6 amended: the link rule fires (its reason appears, and its fixed
weight of 20 is added on top of the keyword contributions) exactly when the
lowercased text contains the substring "http://"; "bit.ly" and "tinyurl"
are not checked and trigger nothing by themselves. -/
theorem C6_link_rule :
    ∀ text : String,
      ("Unsecured link detected" ∈ (text_scam_detection text).2 ↔
        containsB "http://".data (lowerL text.data) = true) ∧
      (text_scam_detection text).1 =
        (keywordLoop WORDS (lowerL text.data)).1 +
          (if containsB "http://".data (lowerL text.data) = true
            then 20 else 0) := by
  intro text
  cases hc : containsB "http://".data (lowerL text.data)
  · have hts : text_scam_detection text =
        keywordLoop WORDS (lowerL text.data) := by
      simp [text_scam_detection, hc]
    rw [hts]
    refine ⟨⟨fun h => absurd h (link_not_mem_keywordLoop _ _),
      fun h => absurd h (by decide)⟩, by simp⟩
  · have hts : text_scam_detection text =
        ((keywordLoop WORDS (lowerL text.data)).1 + 20,
          (keywordLoop WORDS (lowerL text.data)).2 ++
            ["Unsecured link detected"]) := by
      simp [text_scam_detection, hc]
    rw [hts]
    refine ⟨⟨fun _ => rfl, fun _ =>
      List.mem_append_right _ (List.mem_singleton.mpr rfl)⟩, by simp⟩

/-- C7 counterexample: on the non-header input "hello" the subject, sender
and receiver fields are the fixed strings "Screenshot Text", "Unknown" and
"User", not the sentinel "N/A". -/
theorem C7_counterexample :
    is_header "hello" = false ∧
    (analyze_email "hello").subject = "Screenshot Text" ∧
    (analyze_email "hello").sender = "Unknown" ∧
    (analyze_email "hello").receiver = "User" ∧
    ("Screenshot Text" : String) ≠ "N/A" := by
  decide

/-- C7 amended: for every input not detected as a header, field extraction
is skipped and the fields take the fixed defaults "Screenshot Text"
(subject), "Unknown" (sender), "User" (receiver) and "N/A" (date) — only
the date uses the "N/A" sentinel — while the reputation verdict is stubbed
as Unknown with note "Detected from screenshot message". -/
theorem C7_screenshot_mode :
    ∀ data : String, is_header data = false →
      (analyze_email data).subject = "Screenshot Text" ∧
      (analyze_email data).sender = "Unknown" ∧
      (analyze_email data).receiver = "User" ∧
      (analyze_email data).date = "N/A" ∧
      (analyze_email data).reputation = "Unknown" ∧
      (analyze_email data).rep_note = "Detected from screenshot message" := by
  intro data h
  refine ⟨?_, ?_, ?_, ?_, ?_, ?_⟩ <;> simp [analyze_email, h]

/-- C7 witness at the non-header input "hello". -/
theorem C7_witness :
    is_header "hello" = false ∧
    ((analyze_email "hello").subject = "Screenshot Text" ∧
      (analyze_email "hello").sender = "Unknown" ∧
      (analyze_email "hello").receiver = "User" ∧
      (analyze_email "hello").date = "N/A" ∧
      (analyze_email "hello").reputation = "Unknown" ∧
      (analyze_email "hello").rep_note = "Detected from screenshot message") :=
  ⟨by decide, C7_screenshot_mode "hello" (by decide)⟩

/-- C8: when no rule fired on the original text (its reason list is the
single fallback reason, which forces a zero score), appending any trigger
phrase not already present never decreases the analysis score. -/
theorem C8_monotonic :
    ∀ (t p : String), p ∈ triggerPhrases →
      (analyze_email t).reasons = ["No suspicious indicators found"] →
      containsB (lowerL p.data) (lowerL t.data) = false →
      (analyze_email t).score ≤ (analyze_email (t ++ p)).score := by
  intro t p _ hre _
  rw [fallback_score_zero t hre]
  exact Nat.zero_le _

/-- C8 witness: the clean text "hi" and the trigger phrase "urgent". -/
theorem C8_witness :
    ("urgent" ∈ triggerPhrases ∧
      (analyze_email "hi").reasons = ["No suspicious indicators found"] ∧
      containsB (lowerL "urgent".data) (lowerL "hi".data) = false) ∧
    (analyze_email "hi").score ≤ (analyze_email ("hi" ++ "urgent")).score :=
  ⟨⟨by decide, by decide, by decide⟩,
    C8_monotonic "hi" "urgent" (by decide) (by decide) (by decide)⟩

/-- C9: every rule-evaluation function of the embedding is a total Lean
function, mirroring that the source guards its only fallible operations
(the regex group is read only after a successful match; `split("@")` is
never empty): reputation tiers and risk tiers always land in their declared
enumerations, and the edge inputs — empty strings, label-free text, sender
lines without brackets or without an `@` — all yield defined results. -/
theorem C9_totality :
    (∀ s : String,
      (domain_reputation s).1 = "Trusted" ∨
      (domain_reputation s).1 = "Neutral" ∨
      (domain_reputation s).1 = "Suspicious" ∨
      (domain_reputation s).1 = "Unknown") ∧
    (∀ s : String,
      (analyze_email s).risk = "Low" ∨ (analyze_email s).risk = "Medium" ∨
        (analyze_email s).risk = "High") ∧
    extract "Subject:" "" = "N/A" ∧
    extract "From:" "no labels here" = "N/A" ∧
    domain_reputation "" = ("Unknown", "Could not extract sender domain") ∧
    domain_reputation "no brackets" =
      ("Unknown", "Could not extract sender domain") ∧
    domain_reputation "A <xyz>" = ("Unknown", "No strong indicators") ∧
    header_phishing "" = (20, ["Header routing information missing"]) ∧
    text_scam_detection "" = (0, []) := by
  refine ⟨fun s => ?_, fun s => ?_, by decide, by decide, by decide,
    by decide, by decide, by decide, by decide⟩
  · rcases he : extractBracket s.data with _ | br
    · simp [domain_reputation, he]
    · rcases hfb : findBrand KNOWN_BRANDS (lowerL s.data)
        (afterLastAt (lowerL br)) with _ | b <;>
        simp only [domain_reputation, he, hfb] <;> split_ifs <;> simp
  · have hr : (analyze_email s).risk = risk_of (analyze_email s).score := rfl
    rw [hr, risk_of]
    split_ifs <;> simp

/-- C10: on every input detected as a header whose lowercased text lacks the
substring "received:", the missing-routing rule fires: the reason "Header
routing information missing" is in the result and the score is exactly the
authentication-failure contribution plus this rule's 20 points plus the
content scorer's contribution. -/
theorem C10_missing_routing_rule :
    ∀ data : String, is_header data = true →
      containsB "received:".data (lowerL data.data) = false →
      "Header routing information missing" ∈ (analyze_email data).reasons ∧
      (analyze_email data).score =
        ((if (containsB "spf=fail".data (lowerL data.data) ||
              containsB "dkim=fail".data (lowerL data.data) ||
              containsB "dmarc=fail".data (lowerL data.data)) = true
            then 40 else 0) + 20) + (text_scam_detection data).1 := by
  intro data h1 h2
  have hmem : "Header routing information missing" ∈
      (header_phishing data).2 ++ (text_scam_detection data).2 :=
    List.mem_append.mpr (Or.inl (by simp [header_phishing, h2]))
  constructor
  · rw [analyze_email_reasons, if_pos h1]
    by_cases hraw : (header_phishing data).2 ++
        (text_scam_detection data).2 = []
    · exfalso
      rw [hraw] at hmem
      exact absurd hmem (List.not_mem_nil _)
    · rw [if_neg hraw]
      exact hmem
  · rw [analyze_email_score, if_pos h1]
    simp only [header_phishing, h2]
    simp

/-- C10 witness at the header "subject: hi" (no routing line). -/
theorem C10_witness :
    (is_header "subject: hi" = true ∧
      containsB "received:".data (lowerL "subject: hi".data) = false) ∧
    ("Header routing information missing" ∈
        (analyze_email "subject: hi").reasons ∧
      (analyze_email "subject: hi").score =
        ((if (containsB "spf=fail".data (lowerL "subject: hi".data) ||
              containsB "dkim=fail".data (lowerL "subject: hi".data) ||
              containsB "dmarc=fail".data (lowerL "subject: hi".data)) = true
            then 40 else 0) + 20) +
          (text_scam_detection "subject: hi").1) :=
  ⟨⟨by decide, by decide⟩,
    C10_missing_routing_rule "subject: hi" (by decide) (by decide)⟩

end MailGuardian
